import Mathlib

/-!
# Verification of the FastScribe transcription pipeline (`src/app.py`)

Shallow embedding of the core of `app.py`: the timestamp formatter, the SRT
builder, the two-tier YouTube download strategy, the process-wide engine
cache, and the top-level `transcribe` orchestrator.  Python strings are
modelled as Lean `String`, Python `float` seconds as `ℚ` (with Python's
banker's rounding made explicit), Python side effects as explicit
environments (oracles) and state passing, and Python exceptions as
`Except String`.
-/

/-! ## Python string primitives -/

/-- Whitespace characters recognised by Python `str.strip()` (ASCII range). -/
def pyIsWs (c : Char) : Bool :=
  c == ' ' || c == '\t' || c == '\n' || c == '\r' ||
    c == Char.ofNat 11 || c == Char.ofNat 12

/-- Strip leading and trailing whitespace from a character list
(front first, then back), mirroring Python `str.strip()`. -/
def stripChars (l : List Char) : List Char :=
  ((l.dropWhile pyIsWs).reverse.dropWhile pyIsWs).reverse

/-- Python `s.strip()`. -/
def py_strip (s : String) : String :=
  ⟨stripChars s.data⟩

/-- Python `sep.join(xs)`. -/
def py_join (sep : String) : List String → String
  | [] => ""
  | [x] => x
  | x :: y :: t => x ++ sep ++ py_join sep (y :: t)

/-- Left-pad a string with zeros to width `w` (helper for `{n:0wd}`). -/
def zfill (w : Nat) (s : String) : String :=
  ⟨List.replicate (w - s.length) '0'⟩ ++ s

/-- Python `f"{n:0wd}"` formatting of an integer: zero pad to width `w`,
the sign (if any) placed before the padding. -/
def py_fmt_d (w : Nat) (n : ℤ) : String :=
  if n < 0 then "-" ++ zfill (w - 1) (toString n.natAbs)
  else zfill w (toString n.natAbs)

/-! ## `format_timestamp` (app.py lines 30–41) -/

/-- Python `round()` to the nearest integer, ties going to the even
integer (banker's rounding), as used by `int(round(seconds * 1000))`. -/
def roundHalfEven (q : ℚ) : ℤ :=
  let n : ℤ := q.floor
  let frac : ℚ := q - (n : ℚ)
  if frac < 1 / 2 then n
  else if 1 / 2 < frac then n + 1
  else if n % 2 = 0 then n else n + 1

/-- `format_timestamp(seconds)` from `app.py`: `None` is replaced by `0.0`,
the value is rounded to milliseconds, decomposed by Python floor
division/modulus, and rendered as zero-padded `HH:MM:SS,mmm`. -/
def format_timestamp (seconds : Option ℚ) : String :=
  let secs0 : ℚ := seconds.getD 0
  let ms0 : ℤ := roundHalfEven (secs0 * 1000)
  let hours : ℤ := ms0.fdiv 3600000
  let ms1 : ℤ := ms0.fmod 3600000
  let minutes : ℤ := ms1.fdiv 60000
  let ms2 : ℤ := ms1.fmod 60000
  let secs : ℤ := ms2.fdiv 1000
  let ms : ℤ := ms2.fmod 1000
  py_fmt_d 2 hours ++ ":" ++ py_fmt_d 2 minutes ++ ":" ++ py_fmt_d 2 secs
    ++ "," ++ py_fmt_d 3 ms

/-! ## Segments and `build_srt` (app.py lines 127–138) -/

/-- A faster-whisper segment: start/end seconds and the text.  The
timestamps are optional because `format_timestamp` accepts `None`. -/
structure Segment where
  start : Option ℚ
  stop : Option ℚ
  text : String
deriving DecidableEq

/-- `build_srt(segments)` from `app.py`: each segment becomes the block
`f"{i}\n{start} --> {end}\n{text}\n"` (index starting at 1), the blocks
are joined with `"\n"`, the result is stripped and a final newline is
appended. -/
def build_srt (segments : List Segment) : String :=
  let srt_blocks : List String :=
    (segments.enumFrom 1).map (fun p =>
      toString p.1 ++ "\n" ++ format_timestamp p.2.start ++ " --> "
        ++ format_timestamp p.2.stop ++ "\n" ++ py_strip p.2.text ++ "\n")
  py_strip (py_join "\n" srt_blocks) ++ "\n"

/-- One SRT block as the specification describes it: the sequence number,
a `start --> end` line, and the segment's text with surrounding
whitespace trimmed (no trailing newline of its own). -/
def srt_block_spec (i : Nat) (seg : Segment) : String :=
  toString i ++ "\n" ++ format_timestamp seg.start ++ " --> "
    ++ format_timestamp seg.stop ++ "\n" ++ py_strip seg.text

/-- The SRT output as the specification describes it: `N` numbered blocks
in input order, numbered from 1, separated by one blank line, with a
single terminating newline; a single newline for the empty sequence. -/
def srt_spec (segments : List Segment) : String :=
  match segments with
  | [] => "\n"
  | _ :: _ =>
      py_join "\n\n" ((segments.enumFrom 1).map (fun p => srt_block_spec p.1 p.2))
        ++ "\n"

/-! ## `download_youtube_audio` (app.py lines 58–124) -/

/-- Oracle environment for one call of `download_youtube_audio`: the
temporary directory, the behaviour of the `yt-dlp` subprocess (exit code
and stderr text, as a function of the format selector and the URL), the
directory listing after the downloads, and the `os.path.isfile` check. -/
structure DlEnv where
  tmpdir : String
  ytdlp : String → String → Int × String
  files : List String
  isfile : String → Bool

/-- `run_yt_dlp(fmt)`: invoke the subprocess; `none` means it returned
exit code 0, `some msg` is the `RuntimeError` message raised otherwise. -/
def run_yt_dlp (env : DlEnv) (fmt : String) (url : String) : Option String :=
  let proc := env.ytdlp fmt url
  if proc.1 ≠ 0 then
    some ("yt-dlp 下載失敗 (exit code " ++ toString proc.1 ++ "):\n"
      ++ py_strip proc.2)
  else none

/-- Format selector of the first (audio-only) download attempt. -/
def tier1_fmt : String := "bestaudio[ext=m4a]/bestaudio/best"

/-- Format selector of the second (best combined stream) attempt. -/
def tier2_fmt : String := "best"

/-- Python `f.endswith(suffix)`, modelled structurally on the character
lists. -/
def py_endswith (s suf : String) : Bool :=
  List.isSuffixOf suf.data s.data

/-- Scan of the temporary directory after a successful download: keep the
entries that do not end in `.part` and are regular files; fail if none
remain, otherwise return the first one. -/
def scan_download_dir (env : DlEnv) : Except String String :=
  let files := env.files.filter (fun f => !py_endswith f ".part" && env.isfile f)
  match files with
  | [] => Except.error "yt-dlp 回傳成功但沒有找到下載後的檔案。"
  | f :: _ => Except.ok f

/-- `download_youtube_audio(url)`: try the audio-only format, fall back to
`best`, raise the concatenation of both errors if both fail, then scan
the directory.  The first component records the format selectors actually
passed to `yt-dlp`, in order; `Except.error` models the raised
`RuntimeError`. -/
def download_youtube_audio (env : DlEnv) (url : String) :
    List String × Except String String :=
  match run_yt_dlp env tier1_fmt url with
  | none => ([tier1_fmt], scan_download_dir env)
  | some e1 =>
      match run_yt_dlp env tier2_fmt url with
      | none => ([tier1_fmt, tier2_fmt], scan_download_dir env)
      | some e2 => ([tier1_fmt, tier2_fmt], Except.error (e1 ++ "\n\n" ++ e2))

/-! ## The engine cache `MODEL_CACHE` / `get_model` (app.py lines 12, 44–55) -/

/-- Key of the model cache: `(model_name, device, compute_type)`. -/
abbrev EngineKey := String × String × String

/-- The process-wide cache, modelled as an association list (newest entry
first, as a Python dict keyed lookup) plus a counter supplying the
identity of the next `WhisperModel` instance: Python object construction
always yields a fresh object, modelled by a fresh number. -/
structure CacheState where
  cache : List (EngineKey × Nat)
  next : Nat
deriving DecidableEq

/-- The empty `MODEL_CACHE` at interpreter start. -/
def initialCache : CacheState := ⟨[], 0⟩

/-- Dict lookup `MODEL_CACHE[key]` (first matching entry). -/
def lookupKey (c : List (EngineKey × Nat)) (k : EngineKey) : Option Nat :=
  match c with
  | [] => none
  | (k₂, v) :: rest => if k₂ = k then some v else lookupKey rest k

/-- `get_model(model_name, device, compute_type)`: look the key up; on a
miss run the `WhisperModel` constructor (`ctor k = some err` models the
constructor raising, `none` models success, producing a fresh instance)
and store the instance before returning it.  The middle component lists
the constructor invocations performed (`[]` or `[k]`). -/
def get_model (ctor : EngineKey → Option String) (s : CacheState)
    (k : EngineKey) : CacheState × List EngineKey × Except String Nat :=
  match lookupKey s.cache k with
  | some e => (s, [], Except.ok e)
  | none =>
      match ctor k with
      | some err => (s, [k], Except.error err)
      | none => (⟨(k, s.next) :: s.cache, s.next + 1⟩, [k], Except.ok s.next)

/-- Well-formedness of the cache model: every stored instance was
allocated below the counter, and distinct keys hold distinct instances. -/
def CacheWF (s : CacheState) : Prop :=
  (∀ k e, lookupKey s.cache k = some e → e < s.next) ∧
    (∀ k₁ k₂ e, lookupKey s.cache k₁ = some e → lookupKey s.cache k₂ = some e →
      k₁ = k₂)

/-! ## The `transcribe` orchestrator (app.py lines 143–213) -/

/-- A `gr.File`-style value: `name` models the optional `.name` attribute
(`getattr(audio_file, "name", None)`), `asPath` the object itself as used
when the attribute is missing or falsy. -/
structure FileObj where
  name : Option String
  asPath : String
deriving DecidableEq

/-- `getattr(audio_file, "name", None) or audio_file`: the `.name`
attribute when present and non-empty, the object itself otherwise. -/
def fileObjPath (f : FileObj) : String :=
  match f.name with
  | some n => if n = "" then f.asPath else n
  | none => f.asPath

/-- The inputs of `transcribe`, one field per parameter. -/
structure Request where
  audio_file : Option FileObj
  youtube_url : String
  model_name : String
  device : String
  compute_type : String
  language : String
  task : String
  beam_size : Nat
deriving DecidableEq

/-- The lazy segment iterator returned by `model.transcribe`: the segments
it yields, and `failure = some e` if iterating it raises `e` after the
yielded segments (faster-whisper decodes lazily, so inference errors can
surface during the `for seg in segments` loop). -/
structure SegStream where
  produced : List Segment
  failure : Option String

/-- Arguments of one `model.transcribe(...)` call. -/
structure InferArgs where
  path : String
  beam_size : Nat
  language : Option String
  task : String
deriving DecidableEq

/-- The tuple returned by `transcribe`:
`(transcript_text, txt_path, srt_path)`. -/
structure TResult where
  transcript_text : String
  txt_path : Option String
  srt_path : Option String
deriving DecidableEq

/-- Oracle environment for one `transcribe` call: the download
environment, the `WhisperModel` constructor behaviour, whether the
`model.transcribe` call itself raises, the segment stream it returns
otherwise, the fresh output directory, and whether each artifact write
raises. -/
structure TEnv where
  dl : DlEnv
  ctor : EngineKey → Option String
  inferRaises : Option String
  stream : SegStream
  out_dir : String
  writeTxt : Option String
  writeSrt : Option String

/-- Everything observable about one `transcribe` call: the cache state
afterwards, the `yt-dlp` invocations, the constructor invocations, the
`model.transcribe` invocations, and the returned tuple (`Except.error e`
models an exception `e` escaping to the caller). -/
structure TOut where
  state : CacheState
  dlCalls : List String
  ctorCalls : List EngineKey
  inferCalls : List InferArgs
  result : Except String TResult

/-- Lines 163–171 of `transcribe`: the local file (its `.name`, or the
object itself) is used when present, otherwise `download_youtube_audio`
runs on the stripped URL.  First component: `yt-dlp` invocations. -/
def resolve_audio_path (env : TEnv) (req : Request) :
    List String × Except String String :=
  match req.audio_file with
  | some f => ([], Except.ok (fileObjPath f))
  | none => download_youtube_audio env.dl (py_strip req.youtube_url)

/-- The prompt shown when neither source is provided. -/
def no_source_prompt : String := "請先上傳檔案或輸入 YouTube 連結。"

/-- `transcribe(audio_file, youtube_url, ...)` from `app.py`: validation,
resolution, model acquisition, inference, materialization, artifact
writing.  Exceptions raised by the download, the constructor and the
`model.transcribe` call are caught and turned into diagnostic results;
exceptions raised while iterating the lazy stream or writing the files
escape (`Except.error`). -/
def transcribe (env : TEnv) (cs : CacheState) (req : Request) : TOut :=
  if req.audio_file = none ∧ py_strip req.youtube_url = "" then
    ⟨cs, [], [], [], Except.ok ⟨no_source_prompt, none, none⟩⟩
  else
    let r := resolve_audio_path env req
    match r.2 with
    | Except.error e =>
        ⟨cs, r.1, [], [], Except.ok ⟨"YouTube 下載失敗：\n" ++ e, none, none⟩⟩
    | Except.ok audio_path =>
        let key : EngineKey := (req.model_name, req.device, req.compute_type)
        let m := get_model env.ctor cs key
        match m.2.2 with
        | Except.error e =>
            ⟨m.1, r.1, m.2.1, [], Except.ok ⟨"載入模型失敗：" ++ e, none, none⟩⟩
        | Except.ok _engine =>
            let lang_arg : Option String :=
              if req.language = "auto" then none else some req.language
            let args : InferArgs := ⟨audio_path, req.beam_size, lang_arg, req.task⟩
            match env.inferRaises with
            | some e =>
                ⟨m.1, r.1, m.2.1, [args],
                  Except.ok ⟨"轉錄過程發生錯誤：" ++ e, none, none⟩⟩
            | none =>
                match env.stream.failure with
                | some e => ⟨m.1, r.1, m.2.1, [args], Except.error e⟩
                | none =>
                    let segs := env.stream.produced
                    let transcript_text :=
                      py_strip (py_join "\n" (segs.map (fun s => py_strip s.text)))
                    let txt_path := env.out_dir ++ "/transcript.txt"
                    let srt_path := env.out_dir ++ "/subtitles.srt"
                    match env.writeTxt with
                    | some e => ⟨m.1, r.1, m.2.1, [args], Except.error e⟩
                    | none =>
                        match env.writeSrt with
                        | some e => ⟨m.1, r.1, m.2.1, [args], Except.error e⟩
                        | none =>
                            ⟨m.1, r.1, m.2.1, [args],
                              Except.ok ⟨transcript_text, some txt_path,
                                some srt_path⟩⟩

/-! ## Claim predicates and concrete sample inputs -/

/-- The result shape claimed by the specification invariant: both artifact
paths present with non-empty transcript text, or both paths absent. -/
def resultWellFormed (r : TResult) : Prop :=
  (r.txt_path.isSome ∧ r.srt_path.isSome ∧ r.transcript_text ≠ "") ∨
    (r.txt_path = none ∧ r.srt_path = none)

/-- A download environment in which `yt-dlp` always succeeds and one file
is produced. -/
def dlOk : DlEnv :=
  ⟨"/tmp/yt_audio_x", fun _ _ => (0, ""), ["/tmp/yt_audio_x/video.m4a"],
    fun _ => true⟩

/-- A download environment in which the audio-only attempt fails with a
403 and the `best` attempt succeeds, producing one file. -/
def dlT1Fail : DlEnv :=
  ⟨"/tmp/yt_audio_y",
    fun fmt _ => if fmt = tier1_fmt then (1, "ERROR: HTTP Error 403") else (0, ""),
    ["/tmp/yt_audio_y/v.mp4"], fun _ => true⟩

/-- A download environment in which both attempts fail. -/
def dlBothFail : DlEnv :=
  ⟨"/tmp/yt_audio_z",
    fun fmt _ =>
      if fmt = tier1_fmt then (1, "ERROR: HTTP Error 403")
      else (2, "ERROR: unable to download"),
    [], fun _ => true⟩

/-- Two sample segments from the specification's end-to-end example. -/
def segHello : Segment := ⟨some 0, some (6 / 5), "hello"⟩

/-- Second sample segment. -/
def segWorld : Segment := ⟨some (6 / 5), some (5 / 2), "world"⟩

/-- An environment in which every stage succeeds and inference yields the
two sample segments. -/
def envOk : TEnv :=
  ⟨dlOk, fun _ => none, none, ⟨[segHello, segWorld], none⟩,
    "/tmp/transcript_x", none, none⟩

/-- An environment in which every stage succeeds but inference yields no
segments at all. -/
def envEmptySegs : TEnv :=
  ⟨dlOk, fun _ => none, none, ⟨[], none⟩, "/tmp/transcript_x", none, none⟩

/-- An environment in which everything succeeds until the transcript file
write raises an `OSError`. -/
def envWriteFail : TEnv :=
  ⟨dlOk, fun _ => none, none, ⟨[], none⟩, "/tmp/transcript_x",
    some "No space left on device", none⟩

/-- A request supplying a local file and no URL. -/
def reqFile : Request :=
  ⟨some ⟨some "/tmp/a.mp3", "/tmp/a.mp3"⟩, "", "small", "cpu", "int8",
    "auto", "transcribe", 5⟩

/-- A request supplying both a local file and a URL. -/
def reqBoth : Request :=
  ⟨some ⟨some "/tmp/a.mp3", "/tmp/a.mp3"⟩, "https://youtu.be/x", "small",
    "cpu", "int8", "auto", "transcribe", 5⟩

/-- A request supplying neither a file nor a usable URL. -/
def reqNone : Request :=
  ⟨none, "   ", "small", "cpu", "int8", "auto", "transcribe", 5⟩

/-- A sample cache key. -/
def keyA : EngineKey := ("small", "cpu", "float16")

/-- A second, different sample cache key. -/
def keyB : EngineKey := ("base", "cpu", "int8")


/-! ## Theorems -/

/-- Dict lookup on a cons cell. -/
theorem lookupKey_cons (k₂ : EngineKey) (v : Nat) (c : List (EngineKey × Nat))
    (k : EngineKey) :
    lookupKey ((k₂, v) :: c) k = if k₂ = k then some v else lookupKey c k := rfl

/-- C6: for every key, a second `get_model` call with the same key returns
the very same engine instance with no construction performed and no cache
change; a subsequent call with a different key returns a distinct
instance; and on a miss the constructed engine is inserted into the cache
before being returned (the returned state's cache maps the key to the
returned instance). -/
theorem C6_cache_get_or_create
    (ctor ctor₂ ctor₃ : EngineKey → Option String)
    (s s₁ s₂ : CacheState) (k k₂ : EngineKey)
    (t₁ t₂ : List EngineKey) (e₁ e₂ : Nat)
    (hwf : CacheWF s) (hne : k ≠ k₂)
    (h₁ : get_model ctor s k = (s₁, t₁, Except.ok e₁))
    (h₂ : get_model ctor₂ s₁ k₂ = (s₂, t₂, Except.ok e₂)) :
    get_model ctor₃ s₁ k = (s₁, [], Except.ok e₁) ∧
    e₁ ≠ e₂ ∧
    (lookupKey s.cache k = none → lookupKey s₁.cache k = some e₁) := by
  cases hl : lookupKey s.cache k with
  | some e =>
      simp only [get_model, hl, Prod.mk.injEq, Except.ok.injEq] at h₁
      obtain ⟨hs, ht, he⟩ := h₁
      subst hs; subst he
      refine ⟨by simp [get_model, hl], ?_, ?_⟩
      · cases hl₂ : lookupKey s.cache k₂ with
        | some f =>
            simp only [get_model, hl₂, Prod.mk.injEq, Except.ok.injEq] at h₂
            obtain ⟨hs₂, ht₂, he₂⟩ := h₂
            subst he₂
            intro hcontra
            exact hne (hwf.2 k k₂ f (hcontra ▸ hl) hl₂)
        | none =>
            cases hc₂ : ctor₂ k₂ with
            | some err => simp [get_model, hl₂, hc₂] at h₂
            | none =>
                simp only [get_model, hl₂, hc₂, Prod.mk.injEq, Except.ok.injEq] at h₂
                obtain ⟨hs₂, ht₂, he₂⟩ := h₂
                subst he₂
                have := hwf.1 k e hl
                omega
      · intro _hnone
        exact hl
  | none =>
      cases hc : ctor k with
      | some err => simp [get_model, hl, hc] at h₁
      | none =>
          simp only [get_model, hl, hc, Prod.mk.injEq, Except.ok.injEq] at h₁
          obtain ⟨hs, ht, he⟩ := h₁
          subst he
          have hcache : s₁.cache = (k, s.next) :: s.cache := by
            rw [← hs]
          have hnext : s₁.next = s.next + 1 := by
            rw [← hs]
          refine ⟨?_, ?_, ?_⟩
          · simp [get_model, hcache, lookupKey_cons]
          · have hlk₂ : lookupKey s₁.cache k₂ = lookupKey s.cache k₂ := by
              rw [hcache, lookupKey_cons, if_neg hne]
            cases hl₂ : lookupKey s.cache k₂ with
            | some f =>
                simp only [get_model, hlk₂, hl₂, Prod.mk.injEq, Except.ok.injEq] at h₂
                obtain ⟨hs₂, ht₂, he₂⟩ := h₂
                subst he₂
                have := hwf.1 k₂ f hl₂
                omega
            | none =>
                cases hc₂ : ctor₂ k₂ with
                | some err => simp [get_model, hlk₂, hl₂, hc₂] at h₂
                | none =>
                    simp only [get_model, hlk₂, hl₂, hc₂, Prod.mk.injEq, Except.ok.injEq] at h₂
                    obtain ⟨hs₂, ht₂, he₂⟩ := h₂
                    subst he₂
                    omega
          · intro _
            simp [hcache, lookupKey_cons]

/-- Witness for C6 at concrete inputs: starting from the empty cache,
`get_model` for `keyA` allocates instance 0; a repeat call returns the
same instance 0 without construction; a call for `keyB` returns the
distinct instance 1; and the cache maps `keyA` to 0. -/
theorem C6_cache_get_or_create_witness :
    get_model (fun _ => none) ⟨[(keyA, 0)], 1⟩ keyA
      = (⟨[(keyA, 0)], 1⟩, [], Except.ok 0) ∧
    (0 : Nat) ≠ 1 ∧
    lookupKey (⟨[(keyA, 0)], 1⟩ : CacheState).cache keyA = some 0 := by
  have h := C6_cache_get_or_create (fun _ => none) (fun _ => none)
    (fun _ => none) initialCache ⟨[(keyA, 0)], 1⟩ ⟨[(keyB, 1), (keyA, 0)], 2⟩
    keyA keyB [keyA] [keyB] 0 1
    ⟨fun k e hk => by simp [initialCache, lookupKey] at hk,
     fun k₁ k₂ e hk₁ hk₂ => by simp [initialCache, lookupKey] at hk₁⟩
    (by decide) rfl rfl
  exact ⟨h.1, h.2.1, h.2.2 (by decide)⟩

/-- C9: if the `WhisperModel` constructor raises for an uncached key, the
exception propagates out of `get_model` and the cache is left exactly as
it was (the returned state is the input state, with no entry inserted);
a later call with the same key therefore attempts construction again, and
succeeds if the constructor now succeeds. -/
theorem C9_ctor_failure_leaves_cache
    (ctor ctor₂ : EngineKey → Option String) (s : CacheState)
    (k : EngineKey) (err : String)
    (hmiss : lookupKey s.cache k = none) (hfail : ctor k = some err) :
    get_model ctor s k = (s, [k], Except.error err) ∧
    (ctor₂ k = none →
      get_model ctor₂ s k =
        (⟨(k, s.next) :: s.cache, s.next + 1⟩, [k], Except.ok s.next)) := by
  constructor
  · simp [get_model, hmiss, hfail]
  · intro hok
    simp [get_model, hmiss, hok]

/-- Witness for C9 at concrete inputs: with an empty cache and a failing
constructor, `get_model` for `keyA` returns the error and the unchanged
empty cache; the retry with a succeeding constructor constructs and
stores instance 0. -/
theorem C9_ctor_failure_leaves_cache_witness :
    get_model (fun _ => some "CUDA device not available") initialCache keyA
      = (initialCache, [keyA], Except.error "CUDA device not available") ∧
    get_model (fun _ => none) initialCache keyA
      = (⟨[(keyA, 0)], 1⟩, [keyA], Except.ok 0) := by
  have h := C9_ctor_failure_leaves_cache
    (fun _ => some "CUDA device not available") (fun _ => none)
    initialCache keyA "CUDA device not available" rfl rfl
  exact ⟨h.1, h.2 rfl⟩

/-- C5: on the remote-URL path, when the tier-1 (audio-only) attempt fails
(non-zero exit), the tier-2 (`best`) attempt is made; if tier-2 exits
successfully and the directory scan finds a (tier-2) output file, the
resolver succeeds with that file and raises nothing; only if tier-2 also
fails does the resolver fail, and then the raised message is literally
the tier-1 diagnostic concatenated with the tier-2 diagnostic. -/
theorem C5_two_tier_fallback (env : DlEnv) (url : String)
    (h1 : (env.ytdlp tier1_fmt url).1 ≠ 0) :
    (download_youtube_audio env url).1 = [tier1_fmt, tier2_fmt] ∧
    (∀ f fs, (env.ytdlp tier2_fmt url).1 = 0 →
      env.files.filter (fun g => !py_endswith g ".part" && env.isfile g) = f :: fs →
      (download_youtube_audio env url).2 = Except.ok f) ∧
    ((env.ytdlp tier2_fmt url).1 ≠ 0 →
      (download_youtube_audio env url).2 = Except.error
        (("yt-dlp 下載失敗 (exit code " ++ toString (env.ytdlp tier1_fmt url).1
            ++ "):\n" ++ py_strip (env.ytdlp tier1_fmt url).2)
          ++ "\n\n"
          ++ ("yt-dlp 下載失敗 (exit code " ++ toString (env.ytdlp tier2_fmt url).1
            ++ "):\n" ++ py_strip (env.ytdlp tier2_fmt url).2))) := by
  have hr1 : run_yt_dlp env tier1_fmt url =
      some ("yt-dlp 下載失敗 (exit code " ++ toString (env.ytdlp tier1_fmt url).1
        ++ "):\n" ++ py_strip (env.ytdlp tier1_fmt url).2) := by
    simp [run_yt_dlp, h1]
  refine ⟨?_, ?_, ?_⟩
  · simp only [download_youtube_audio, hr1]
    cases hr2 : run_yt_dlp env tier2_fmt url <;> simp [hr2]
  · intro f fs h2 hfiles
    have hr2 : run_yt_dlp env tier2_fmt url = none := by
      simp [run_yt_dlp, h2]
    simp [download_youtube_audio, hr1, hr2, scan_download_dir, hfiles]
  · intro h2
    have hr2 : run_yt_dlp env tier2_fmt url =
        some ("yt-dlp 下載失敗 (exit code " ++ toString (env.ytdlp tier2_fmt url).1
          ++ "):\n" ++ py_strip (env.ytdlp tier2_fmt url).2) := by
      simp [run_yt_dlp, h2]
    simp [download_youtube_audio, hr1, hr2]

/-- Witness for C5 at a concrete environment: tier 1 exits 1, tier 2 exits
0 and one file is present, so both selectors are tried in order and the
resolver returns that file. -/
theorem C5_two_tier_fallback_witness :
    (download_youtube_audio dlT1Fail "https://youtu.be/x").1
      = [tier1_fmt, tier2_fmt] ∧
    (download_youtube_audio dlT1Fail "https://youtu.be/x").2
      = Except.ok "/tmp/yt_audio_y/v.mp4" := by
  have h := C5_two_tier_fallback dlT1Fail "https://youtu.be/x" (by decide)
  exact ⟨h.1, h.2.1 "/tmp/yt_audio_y/v.mp4" [] (by decide) (by decide)⟩

/-- A string with a non-empty left part is non-empty. -/
theorem append_ne_empty_left (s t : String) (h : s ≠ "") : s ++ t ≠ "" := by
  intro hc
  apply h
  apply String.ext
  have hd := congrArg String.data hc
  rw [String.data_append] at hd
  have := List.append_eq_nil.mp hd
  exact this.1

/-- C7: when no file is uploaded and the URL strips to the empty string,
`transcribe` returns at once: the cache is untouched, `yt-dlp` is never
run, no engine construction and no inference is attempted, and the result
is the non-empty prompt diagnostic with both artifact paths absent. -/
theorem C7_no_source_early_return (env : TEnv) (cs : CacheState)
    (req : Request) (h₁ : req.audio_file = none)
    (h₂ : py_strip req.youtube_url = "") :
    transcribe env cs req
      = ⟨cs, [], [], [], Except.ok ⟨no_source_prompt, none, none⟩⟩ ∧
    no_source_prompt ≠ "" := by
  refine ⟨?_, by decide⟩
  simp [transcribe, h₁, h₂]

/-- Witness for C7: the request with no file and a blank URL produces
exactly the prompt result and touches nothing. -/
theorem C7_no_source_early_return_witness :
    transcribe envOk initialCache reqNone
      = ⟨initialCache, [], [], [], Except.ok ⟨no_source_prompt, none, none⟩⟩ ∧
    no_source_prompt ≠ "" :=
  C7_no_source_early_return envOk initialCache reqNone rfl rfl

/-- Helper: with a local file supplied, resolution is a pure pass-through
and the whole `transcribe` call records no `yt-dlp` invocation. -/
theorem local_file_passthrough_aux (env : TEnv) (cs : CacheState)
    (req : Request) (f : FileObj) (h : req.audio_file = some f) :
    resolve_audio_path env req = ([], Except.ok (fileObjPath f)) ∧
    (transcribe env cs req).dlCalls = [] := by
  have hres : resolve_audio_path env req = ([], Except.ok (fileObjPath f)) := by
    simp [resolve_audio_path, h]
  refine ⟨hres, ?_⟩
  simp only [transcribe, h, hres]
  split
  · rename_i hcond
    simp at hcond
  · split
    · simp
    · split <;> [simp; skip]
      split <;> [simp; skip]
      split <;> [simp; skip]
      split <;> simp

/-- C8: when a local file is supplied, the media-resolution step returns
its path (the `.name` attribute, or the object itself) unchanged and runs
no `yt-dlp` invocation; the whole `transcribe` call performs no download.
The statement quantifies over every environment, in particular over every
`isfile` oracle, so no existence check can influence the outcome. -/
theorem C8_local_file_passthrough (env : TEnv) (cs : CacheState)
    (req : Request) (f : FileObj) (h : req.audio_file = some f) :
    resolve_audio_path env req = ([], Except.ok (fileObjPath f)) ∧
    (transcribe env cs req).dlCalls = [] :=
  local_file_passthrough_aux env cs req f h

/-- Witness for C8: with the uploaded file `/tmp/a.mp3`, resolution yields
that path with no `yt-dlp` call, and the full run performs no download. -/
theorem C8_local_file_passthrough_witness :
    resolve_audio_path envOk reqFile
      = ([], Except.ok (fileObjPath ⟨some "/tmp/a.mp3", "/tmp/a.mp3"⟩)) ∧
    (transcribe envOk initialCache reqFile).dlCalls = [] :=
  C8_local_file_passthrough envOk initialCache reqFile
    ⟨some "/tmp/a.mp3", "/tmp/a.mp3"⟩ rfl

/-- C10: when both a local file and a non-blank URL are supplied, the
local file wins: the run is identical to the run with the URL field
blanked out, no `yt-dlp` invocation happens, and resolution yields the
file's path (the request is not rejected for having two sources). -/
theorem C10_local_file_precedence (env : TEnv) (cs : CacheState)
    (req : Request) (f : FileObj) (h : req.audio_file = some f)
    (hurl : py_strip req.youtube_url ≠ "") :
    transcribe env cs req = transcribe env cs { req with youtube_url := "" } ∧
    (transcribe env cs req).dlCalls = [] ∧
    resolve_audio_path env req = ([], Except.ok (fileObjPath f)) := by
  obtain ⟨af, url, mn, dv, ct, lg, tk, bs⟩ := req
  cases h
  exact ⟨rfl, (local_file_passthrough_aux env cs _ f rfl).2,
    (local_file_passthrough_aux env cs _ f rfl).1⟩

/-- Witness for C10: with both `/tmp/a.mp3` and a URL supplied, the run
equals the URL-free run, performs no download, and resolves to the file. -/
theorem C10_local_file_precedence_witness :
    transcribe envOk initialCache reqBoth
      = transcribe envOk initialCache { reqBoth with youtube_url := "" } ∧
    (transcribe envOk initialCache reqBoth).dlCalls = [] ∧
    resolve_audio_path envOk reqBoth
      = ([], Except.ok (fileObjPath ⟨some "/tmp/a.mp3", "/tmp/a.mp3"⟩)) :=
  C10_local_file_precedence envOk initialCache reqBoth
    ⟨some "/tmp/a.mp3", "/tmp/a.mp3"⟩ rfl (by decide)

/-- C1 (amended): every returned result has either both artifact paths
present, or both absent together with a non-empty (diagnostic) transcript
text.  The original claim additionally required non-empty transcript text
whenever both paths are present; that part fails (see the
counterexample), because a run whose engine yields no segments returns
both paths with an empty transcript. -/
theorem C1_result_shape (env : TEnv) (cs : CacheState) (req : Request)
    (t : String) (p₁ p₂ : Option String)
    (h : (transcribe env cs req).result = Except.ok ⟨t, p₁, p₂⟩) :
    (p₁.isSome ∧ p₂.isSome) ∨ (p₁ = none ∧ p₂ = none ∧ t ≠ "") := by
  simp only [transcribe] at h
  split at h
  · simp only [Except.ok.injEq, TResult.mk.injEq] at h
    exact Or.inr ⟨h.2.1.symm, h.2.2.symm, h.1 ▸ (by decide)⟩
  · split at h
    · simp only [Except.ok.injEq, TResult.mk.injEq] at h
      refine Or.inr ⟨h.2.1.symm, h.2.2.symm, h.1 ▸ ?_⟩
      exact append_ne_empty_left _ _ (by decide)
    · split at h
      · simp only [Except.ok.injEq, TResult.mk.injEq] at h
        refine Or.inr ⟨h.2.1.symm, h.2.2.symm, h.1 ▸ ?_⟩
        exact append_ne_empty_left _ _ (by decide)
      · split at h
        · simp only [Except.ok.injEq, TResult.mk.injEq] at h
          refine Or.inr ⟨h.2.1.symm, h.2.2.symm, h.1 ▸ ?_⟩
          exact append_ne_empty_left _ _ (by decide)
        · split at h
          · exact absurd h (by simp)
          · split at h
            · exact absurd h (by simp)
            · split at h
              · exact absurd h (by simp)
              · simp only [Except.ok.injEq, TResult.mk.injEq] at h
                exact Or.inl ⟨h.2.1 ▸ rfl, h.2.2 ▸ rfl⟩

/-- Witness for C1: the successful sample run returns the transcript
`"hello\nworld"` with both artifact paths present. -/
theorem C1_result_shape_witness :
    ((some ("/tmp/transcript_x" ++ "/transcript.txt") : Option String).isSome ∧
      (some ("/tmp/transcript_x" ++ "/subtitles.srt") : Option String).isSome) ∨
    ((some ("/tmp/transcript_x" ++ "/transcript.txt") : Option String) = none ∧
      (some ("/tmp/transcript_x" ++ "/subtitles.srt") : Option String) = none ∧
      ("hello" ++ "\n" ++ "world" : String) ≠ "") :=
  C1_result_shape envOk initialCache reqFile ("hello" ++ "\n" ++ "world")
    (some ("/tmp/transcript_x" ++ "/transcript.txt"))
    (some ("/tmp/transcript_x" ++ "/subtitles.srt")) (by with_unfolding_all rfl)

/-- Counterexample for C1 as stated: when inference succeeds but yields no
segments, `transcribe` returns both artifact paths together with an empty
transcript text, violating the claimed invariant. -/
theorem C1_result_shape_counterexample :
    (transcribe envEmptySegs initialCache reqFile).result
      = Except.ok ⟨"", some "/tmp/transcript_x/transcript.txt",
          some "/tmp/transcript_x/subtitles.srt"⟩ ∧
    ¬ resultWellFormed ⟨"", some "/tmp/transcript_x/transcript.txt",
        some "/tmp/transcript_x/subtitles.srt"⟩ := by
  constructor
  · with_unfolding_all rfl
  · simp [resultWellFormed]

/-- C2 (amended): `transcribe` returns (rather than raises) on every input
provided the lazy segment stream materializes without raising and both
artifact writes succeed: failures of validation, of the download, of the
engine constructor and of the `model.transcribe` call are all caught and
converted into diagnostic results.  The original claim extended this to
failures while writing the artifact files (and, implicitly, while
iterating the lazy stream); those exceptions in fact escape to the caller
— see the counterexample. -/
theorem C2_no_raise_under_proviso (env : TEnv) (cs : CacheState)
    (req : Request) (h₁ : env.stream.failure = none)
    (h₂ : env.writeTxt = none) (h₃ : env.writeSrt = none) :
    ∃ r, (transcribe env cs req).result = Except.ok r := by
  simp only [transcribe]
  split
  · exact ⟨_, rfl⟩
  · split
    · exact ⟨_, rfl⟩
    · split
      · exact ⟨_, rfl⟩
      · split
        · exact ⟨_, rfl⟩
        · split
          · rename_i e hfail
            rw [h₁] at hfail
            exact Option.noConfusion hfail
          · split
            · rename_i e hfail
              rw [h₂] at hfail
              exact Option.noConfusion hfail
            · split
              · rename_i e hfail
                rw [h₃] at hfail
                exact Option.noConfusion hfail
              · exact ⟨_, rfl⟩

/-- Witness for C2: the fully successful sample environment returns a
result. -/
theorem C2_no_raise_under_proviso_witness :
    ∃ r, (transcribe envOk initialCache reqFile).result = Except.ok r :=
  C2_no_raise_under_proviso envOk initialCache reqFile rfl rfl rfl

/-- Counterexample for C2 as stated: if opening/writing the transcript
file raises `OSError` (e.g. a full disk), the exception escapes
`transcribe` — the claimed total exception safety does not hold. -/
theorem C2_no_raise_counterexample :
    ¬ ∀ (env : TEnv) (cs : CacheState) (req : Request),
        ∃ r, (transcribe env cs req).result = Except.ok r := by
  intro hall
  obtain ⟨r, hr⟩ := hall envWriteFail initialCache reqFile
  rw [show (transcribe envWriteFail initialCache reqFile).result
      = Except.error "No space left on device" from rfl] at hr
  exact Except.noConfusion hr

/-- Python `round` of a non-negative value is non-negative. -/
theorem roundHalfEven_nonneg (q : ℚ) (hq : 0 ≤ q) : 0 ≤ roundHalfEven q := by
  have h0 : (0 : ℤ) ≤ q.floor := Rat.le_floor.mpr (by exact_mod_cast hq)
  simp only [roundHalfEven]
  split
  · exact h0
  · split
    · omega
    · split <;> omega

/-- C3: `format_timestamp` treats `None` as zero and renders
`"00:00:00,000"` for zero seconds; it is a pure function, hence
deterministic across repeated calls; and for every non-negative seconds
value it first rounds to the nearest millisecond (ties to even, Python's
`round`) and then decomposes that millisecond count by integer division
with carries into `H:MM:SS,mmm` fields satisfying the expected bounds,
zero-padded, with the hour field unbounded (`25:00:00,000` for 90000 s,
third conjunct). -/
theorem C3_format_timestamp_spec :
    format_timestamp none = "00:00:00,000" ∧
    format_timestamp (some 0) = "00:00:00,000" ∧
    format_timestamp (some 90000) = "25:00:00,000" ∧
    (∀ x y : Option ℚ, x = y → format_timestamp x = format_timestamp y) ∧
    (∀ q : ℚ, 0 ≤ q →
      ∃ h m s r : ℤ,
        0 ≤ h ∧ 0 ≤ m ∧ m < 60 ∧ 0 ≤ s ∧ s < 60 ∧ 0 ≤ r ∧ r < 1000 ∧
        ((h * 60 + m) * 60 + s) * 1000 + r = roundHalfEven (q * 1000) ∧
        format_timestamp (some q) =
          py_fmt_d 2 h ++ ":" ++ py_fmt_d 2 m ++ ":" ++ py_fmt_d 2 s ++ ","
            ++ py_fmt_d 3 r) := by
  refine ⟨by with_unfolding_all rfl, by with_unfolding_all rfl,
    by with_unfolding_all rfl, fun x y hxy => hxy ▸ rfl, ?_⟩
  intro q hq
  have hms : 0 ≤ roundHalfEven (q * 1000) :=
    roundHalfEven_nonneg _ (mul_nonneg hq (by norm_num))
  set ms0 := roundHalfEven (q * 1000) with hms0
  have e1 : ms0.fdiv 3600000 = ms0 / 3600000 := Int.fdiv_eq_ediv _ (by norm_num)
  have e2 : ms0.fmod 3600000 = ms0 % 3600000 := Int.fmod_eq_emod _ (by norm_num)
  have e3 : (ms0.fmod 3600000).fdiv 60000 = (ms0 % 3600000) / 60000 := by
    rw [e2]; exact Int.fdiv_eq_ediv _ (by norm_num)
  have e4 : (ms0.fmod 3600000).fmod 60000 = (ms0 % 3600000) % 60000 := by
    rw [e2]; exact Int.fmod_eq_emod _ (by norm_num)
  have e5 : ((ms0.fmod 3600000).fmod 60000).fdiv 1000
      = ((ms0 % 3600000) % 60000) / 1000 := by
    rw [e4]; exact Int.fdiv_eq_ediv _ (by norm_num)
  have e6 : ((ms0.fmod 3600000).fmod 60000).fmod 1000
      = ((ms0 % 3600000) % 60000) % 1000 := by
    rw [e4]; exact Int.fmod_eq_emod _ (by norm_num)
  refine ⟨ms0.fdiv 3600000, (ms0.fmod 3600000).fdiv 60000,
    ((ms0.fmod 3600000).fmod 60000).fdiv 1000,
    ((ms0.fmod 3600000).fmod 60000).fmod 1000,
    ?_, ?_, ?_, ?_, ?_, ?_, ?_, ?_, by rfl⟩
  · rw [e1]; omega
  · rw [e3]; omega
  · rw [e3]; omega
  · rw [e5]; omega
  · rw [e5]; omega
  · rw [e6]; omega
  · rw [e6]; omega
  · rw [e1, e3, e5, e6]; omega

/-- Witness for C3's structural conjunct at 3.5 seconds. -/
theorem C3_format_timestamp_spec_witness :
    ∃ h m s r : ℤ,
      0 ≤ h ∧ 0 ≤ m ∧ m < 60 ∧ 0 ≤ s ∧ s < 60 ∧ 0 ≤ r ∧ r < 1000 ∧
      ((h * 60 + m) * 60 + s) * 1000 + r = roundHalfEven ((7 / 2 : ℚ) * 1000) ∧
      format_timestamp (some (7 / 2)) =
        py_fmt_d 2 h ++ ":" ++ py_fmt_d 2 m ++ ":" ++ py_fmt_d 2 s ++ ","
          ++ py_fmt_d 3 r :=
  C3_format_timestamp_spec.2.2.2.2 (7 / 2) (by norm_num)

/-- The head of a `dropWhile` result never satisfies the predicate. -/
theorem head_dropWhile_false {α : Type} (p : α → Bool) (l : List α) (c : α)
    (h : (l.dropWhile p).head? = some c) : p c = false := by
  induction l with
  | nil => simp at h
  | cons a t ih =>
      cases hpa : p a with
      | true =>
          simp only [List.dropWhile_cons, hpa, if_true] at h
          exact ih h
      | false =>
          simp only [List.dropWhile_cons, hpa, Bool.false_eq_true, if_false,
            List.head?_cons, Option.some.injEq] at h
          exact h ▸ hpa

/-- Dropping a prefix can never remove a final element that fails the
predicate. -/
theorem dropWhile_append_single {α : Type} (p : α → Bool) (a : α)
    (ha : p a = false) :
    ∀ m : List α, ∃ r, (m ++ [a]).dropWhile p = r ++ [a] := by
  intro m
  induction m with
  | nil =>
      refine ⟨[], ?_⟩
      simp [List.dropWhile_cons, ha]
  | cons b t ih =>
      cases hpb : p b with
      | true =>
          obtain ⟨r, hr⟩ := ih
          refine ⟨r, ?_⟩
          simpa [List.cons_append, List.dropWhile_cons, hpb] using hr
      | false =>
          refine ⟨b :: t, ?_⟩
          simp [List.cons_append, List.dropWhile_cons, hpb]

/-- The first character of a stripped string is not whitespace. -/
theorem stripChars_head_not_ws (l : List Char) (c : Char)
    (h : (stripChars l).head? = some c) : pyIsWs c = false := by
  induction l with
  | nil => simp [stripChars] at h
  | cons a t ih =>
      cases hwa : pyIsWs a with
      | true =>
          have he : stripChars (a :: t) = stripChars t := by
            simp [stripChars, List.dropWhile_cons, hwa]
          rw [he] at h
          exact ih h
      | false =>
          have h1 : (a :: t).dropWhile pyIsWs = a :: t := by
            simp [List.dropWhile_cons, hwa]
          obtain ⟨r, hr⟩ := dropWhile_append_single pyIsWs a hwa t.reverse
          have h2 : stripChars (a :: t) = a :: r.reverse := by
            unfold stripChars
            rw [h1, List.reverse_cons, hr, List.reverse_append]
            simp
          rw [h2] at h
          simp only [List.head?_cons, Option.some.injEq] at h
          exact h ▸ hwa

/-- The last character of a stripped string is not whitespace. -/
theorem stripChars_getLast_not_ws (l : List Char) (c : Char)
    (h : (stripChars l).getLast? = some c) : pyIsWs c = false := by
  rw [List.getLast?_eq_head?_reverse] at h
  unfold stripChars at h
  rw [List.reverse_reverse] at h
  exact head_dropWhile_false _ _ _ h

/-- Stripping a string that starts and ends with non-whitespace and then
gained a trailing newline returns the original string. -/
theorem stripChars_append_newline (l : List Char) (hne : l ≠ [])
    (hh : ∀ c, l.head? = some c → pyIsWs c = false)
    (hl : ∀ c, l.getLast? = some c → pyIsWs c = false) :
    stripChars (l ++ ['\n']) = l := by
  obtain ⟨a, t, rfl⟩ := List.exists_cons_of_ne_nil hne
  have hwa : pyIsWs a = false := hh a rfl
  have h1 : ((a :: t) ++ ['\n']).dropWhile pyIsWs = (a :: t) ++ ['\n'] := by
    simp [List.cons_append, List.dropWhile_cons, hwa]
  obtain ⟨d, hd⟩ : ∃ d, (a :: t).getLast? = some d :=
    ⟨(a :: t).getLast (by simp), List.getLast?_eq_getLast _ _⟩
  have hwd : pyIsWs d = false := hl d hd
  have hhead : (a :: t).reverse.head? = some d := by
    rw [List.head?_reverse]; exact hd
  unfold stripChars
  rw [h1]
  have hrev : ((a :: t) ++ ['\n']).reverse = '\n' :: (a :: t).reverse := by
    simp
  rw [hrev, List.dropWhile_cons, if_pos (by decide)]
  cases hrv : (a :: t).reverse with
  | nil => rw [hrv] at hhead; simp at hhead
  | cons b rest =>
      rw [hrv] at hhead
      simp only [List.head?_cons, Option.some.injEq] at hhead
      rw [List.dropWhile_cons, if_neg (by rw [hhead, hwd]; simp)]
      rw [← hrv, List.reverse_reverse]

/-- String-level version of `stripChars_append_newline`. -/
theorem py_strip_append_newline (s : String) (hne : s.data ≠ [])
    (hh : ∀ c, s.data.head? = some c → pyIsWs c = false)
    (hl : ∀ c, s.data.getLast? = some c → pyIsWs c = false) :
    py_strip (s ++ "\n") = s := by
  apply String.ext
  show stripChars (s ++ "\n").data = s.data
  rw [String.data_append]
  exact stripChars_append_newline s.data hne hh hl

/-- Joining with `"\n"` blocks that each carry their own trailing newline
equals joining the bare blocks with a blank line and appending one final
newline. -/
theorem py_join_map_append_aux (x : String) (t : List String) :
    py_join "\n" ((x :: t).map (fun b => b ++ "\n"))
      = py_join "\n\n" (x :: t) ++ "\n" := by
  induction t generalizing x with
  | nil => rfl
  | cons y t₂ ih =>
      show x ++ "\n" ++ "\n" ++ py_join "\n" ((y :: t₂).map (fun b => b ++ "\n"))
        = (x ++ "\n\n" ++ py_join "\n\n" (y :: t₂)) ++ "\n"
      rw [ih y, String.append_assoc x "\n" "\n",
        show ("\n" : String) ++ "\n" = "\n\n" from rfl,
        ← String.append_assoc]

/-- `py_join_map_append_aux` for any non-empty list. -/
theorem py_join_map_append (l : List String) (hne : l ≠ []) :
    py_join "\n" (l.map (fun b => b ++ "\n"))
      = py_join "\n\n" l ++ "\n" := by
  obtain ⟨x, t, rfl⟩ := List.exists_cons_of_ne_nil hne
  exact py_join_map_append_aux x t

/-- The head of a joined non-empty-headed list is the head of its first
element. -/
theorem py_join_head (sep : String) (x : String) (t : List String)
    (hx : x.data ≠ []) :
    (py_join sep (x :: t)).data.head? = x.data.head? := by
  cases t with
  | nil => rfl
  | cons y t₂ =>
      show ((x ++ sep) ++ py_join sep (y :: t₂)).data.head? = x.data.head?
      rw [String.data_append, String.data_append, List.append_assoc]
      cases hx' : x.data with
      | nil => exact absurd hx' hx
      | cons c cs => simp

/-- A join of non-empty blocks whose last characters are non-whitespace is
itself non-empty with a non-whitespace last character. -/
theorem py_join_getLast_aux (sep : String) :
    ∀ l : List String, l ≠ [] →
      (∀ b ∈ l, b.data ≠ [] ∧
        ∀ c, b.data.getLast? = some c → pyIsWs c = false) →
      (py_join sep l).data ≠ [] ∧
        ∀ c, (py_join sep l).data.getLast? = some c → pyIsWs c = false := by
  intro l
  induction l with
  | nil => intro h; exact absurd rfl h
  | cons x t ih =>
      intro _ hall
      cases t with
      | nil => exact hall x (by simp)
      | cons y t₂ =>
          have hr := ih (by simp) (fun b hb => hall b (List.mem_cons_of_mem x hb))
          constructor
          · show ((x ++ sep) ++ py_join sep (y :: t₂)).data ≠ []
            rw [String.data_append]
            intro hc
            exact hr.1 (List.append_eq_nil.mp hc).2
          · intro c hc
            have he : ((x ++ sep) ++ py_join sep (y :: t₂)).data.getLast?
                = (py_join sep (y :: t₂)).data.getLast? := by
              rw [String.data_append]
              exact List.getLast?_append_of_ne_nil _ hr.1
            rw [show (py_join sep (x :: y :: t₂)).data.getLast?
                = ((x ++ sep) ++ py_join sep (y :: t₂)).data.getLast? from rfl,
              he] at hc
            exact hr.2 c hc

/-- A block whose trimmed text is non-empty is non-empty and ends in a
non-whitespace character (the last character of the trimmed text). -/
theorem srt_block_spec_tail_ok (i : Nat) (seg : Segment)
    (h : py_strip seg.text ≠ "") :
    (srt_block_spec i seg).data ≠ [] ∧
    ∀ c, (srt_block_spec i seg).data.getLast? = some c → pyIsWs c = false := by
  have hd : (py_strip seg.text).data ≠ [] := by
    intro hc
    exact h (String.ext (by rw [hc]))
  constructor
  · show ((toString i ++ "\n" ++ format_timestamp seg.start ++ " --> "
        ++ format_timestamp seg.stop ++ "\n") ++ py_strip seg.text).data ≠ []
    rw [String.data_append]
    intro hc
    exact hd (List.append_eq_nil.mp hc).2
  · intro c hc
    rw [show (srt_block_spec i seg).data
        = (toString i ++ "\n" ++ format_timestamp seg.start ++ " --> "
            ++ format_timestamp seg.stop ++ "\n").data
          ++ (py_strip seg.text).data from String.data_append _ _,
      List.getLast?_append_of_ne_nil _ hd] at hc
    exact stripChars_getLast_not_ws _ _ hc

/-- The first block of the SRT output starts with the character `1`. -/
theorem srt_block_spec_one_head (seg : Segment) :
    (srt_block_spec 1 seg).data.head? = some '1' := by
  have h1 : (toString (1 : Nat)).data = ['1'] := rfl
  unfold srt_block_spec
  simp [String.data_append, h1]

/-- C4 (amended): provided each segment's trimmed text is non-empty,
`build_srt` produces exactly the specified SRT shape: the `N` blocks in
input order numbered `1..N`, each with its timestamp line and trimmed
text, separated by blank lines, terminated by a single newline — and the
empty sequence produces a single newline.  (When a trailing segment's
text trims to the empty string, the final `strip` also removes that
block's empty text line — see the counterexample.) -/
theorem C4_build_srt_spec (segs : List Segment)
    (h : ∀ s ∈ segs, py_strip s.text ≠ "") :
    build_srt segs = srt_spec segs := by
  cases segs with
  | nil => rfl
  | cons s₀ rest =>
      set cores := ((s₀ :: rest).enumFrom 1).map
        (fun p => srt_block_spec p.1 p.2) with hcores
      have hmap : ((s₀ :: rest).enumFrom 1).map (fun p =>
          toString p.1 ++ "\n" ++ format_timestamp p.2.start ++ " --> "
            ++ format_timestamp p.2.stop ++ "\n" ++ py_strip p.2.text ++ "\n")
          = cores.map (fun b => b ++ "\n") := by
        rw [hcores, List.map_map]
        rfl
      have hcne : cores ≠ [] := by
        rw [hcores]
        simp
      have hblocks : ∀ b ∈ cores, b.data ≠ [] ∧
          ∀ c, b.data.getLast? = some c → pyIsWs c = false := by
        rw [hcores]
        intro b hb
        simp only [List.mem_map] at hb
        obtain ⟨p, hp, rfl⟩ := hb
        have hmem : p.2 ∈ s₀ :: rest := by
          have := List.mem_map_of_mem Prod.snd hp
          rwa [List.enumFrom_map_snd] at this
        exact srt_block_spec_tail_ok p.1 p.2 (h p.2 hmem)
      have hjoin := py_join_getLast_aux "\n\n" cores hcne hblocks
      have hheadb : cores = srt_block_spec 1 s₀
          :: (rest.enumFrom 2).map (fun p => srt_block_spec p.1 p.2) := by
        rw [hcores]
        rfl
      have hb1ne : (srt_block_spec 1 s₀).data ≠ [] := by
        intro hc
        have h1 := srt_block_spec_one_head s₀
        rw [hc] at h1
        simp at h1
      have hjhead : ∀ c, (py_join "\n\n" cores).data.head? = some c →
          pyIsWs c = false := by
        intro c hc
        rw [hheadb, py_join_head _ _ _ hb1ne, srt_block_spec_one_head s₀] at hc
        simp only [Option.some.injEq] at hc
        rw [← hc]
        decide
      have e0 : build_srt (s₀ :: rest)
          = py_strip (py_join "\n" (cores.map (fun b => b ++ "\n"))) ++ "\n" := by
        simp only [build_srt]
        rw [hmap]
      have e1 : py_join "\n" (cores.map (fun b => b ++ "\n"))
          = py_join "\n\n" cores ++ "\n" := py_join_map_append cores hcne
      have e2 : py_strip (py_join "\n\n" cores ++ "\n") = py_join "\n\n" cores :=
        py_strip_append_newline _ hjoin.1 hjhead hjoin.2
      rw [e0, e1, e2]
      rw [hcores]
      rfl

/-- Witness for C4 at the specification's own two-segment example. -/
theorem C4_build_srt_spec_witness :
    build_srt [segHello, segWorld] = srt_spec [segHello, segWorld] :=
  C4_build_srt_spec [segHello, segWorld] (by with_unfolding_all decide)

/-- Counterexample for C4 as stated: a single segment whose text trims to
the empty string loses its (empty) text line — the final `strip` removes
it together with the block's newline, so the output is not the claimed
block shape (sequence number, timestamp line, trimmed text, single
terminating newline). -/
theorem C4_build_srt_counterexample :
    build_srt [⟨some 0, some 1, " "⟩] ≠ srt_spec [⟨some 0, some 1, " "⟩] := by
  with_unfolding_all decide
